import Mathlib

/-
Verification of the Pulse-js reactive core against its specification.

The definitions below are a shallow embedding of the TypeScript sources:
  * src/src/compute.ts   (the Guard evaluation engine, second revision in the
    file: the always-structured GuardReason version, lines 451-1017)
  * src/src/tracking.ts  (the guard-stack revision with cyclic detection)
  * src/src/registry.ts  (the `source` primitive, lines 484-525)
  * src/unnamed/part_005 (guardAll composition)
  * src/unnamed/part_007 (deep reactive pulse objects)

Modelling conventions: JavaScript values relevant to the Guard result
trichotomy are modelled by `JSVal` (literal `false`, `undefined`, and other
values); thrown JavaScript values by `JSError` (the `_pulseFail`/`_reason`
marker set by guardFail is `pulseFailReason`, and a truthy `meta`/`code`
property is a `some`). Wall-clock timestamps (`updatedAt`) are elided: no
claim mentions them. Sets of dependents/subscribers are modelled as lists of
numeric identities; notification fan-out is returned explicitly by each
operation so that "who was notified" is part of the model.
-/

namespace Pulse

/-- Model of the JavaScript values a Guard evaluator can return synchronously
or resolve with: the literal `false`, `undefined`, or any other value. -/
inductive JSVal where
  | undef
  | boolF
  | boolT
  | num (n : Int)
  | str (s : String)
deriving DecidableEq, Repr

/-- GuardStatus from compute.ts: 'ok' | 'fail' | 'pending'. -/
inductive GuardStatus where
  | ok
  | fail
  | pending
deriving DecidableEq, Repr

/-- GuardReason from compute.ts: structured failure payload. The `toString()`
closure of every reason built by the library returns `message`, so it is not
stored separately. A truthy `meta` is modelled as `some`. -/
structure GuardReason where
  code : String
  message : String
  meta : Option String := none
deriving DecidableEq, Repr

/-- GuardState from compute.ts (second revision): status plus optional value,
reason and lastReason. `updatedAt` is elided. -/
structure GuardState where
  status : GuardStatus
  value : Option JSVal := none
  reason : Option GuardReason := none
  lastReason : Option GuardReason := none
deriving DecidableEq, Repr

/-- A thrown JavaScript value as the Guard catch blocks inspect it:
`pulseFailReason` models the `_pulseFail`/`_reason` marker attached by
`guardFail`; `code` and `meta` are `some` exactly when the corresponding
property is truthy. -/
structure JSError where
  message : String
  pulseFailReason : Option GuardReason := none
  code : Option String := none
  meta : Option String := none
deriving DecidableEq, Repr

/-- The default failure message: `name ? name + " failed" : 'condition failed'`.
JavaScript truthiness makes the empty-string name fall back to the default. -/
def defaultFailMessage (name : Option String) : String :=
  match name with
  | some n => if n = "" then "condition failed" else n ++ " failed"
  | none => "condition failed"

/-- The GuardReason built for a `false` result: code 'GUARD_FAIL' with the
default failure message. -/
def defaultFailReason (name : Option String) : GuardReason :=
  { code := "GUARD_FAIL", message := defaultFailMessage name }

/-- Normalisation of a thrown value into a GuardReason, as in the catch
blocks of `evaluate` in compute.ts: a `_pulseFail` error carries its own
`_reason`; otherwise a truthy `meta` yields a structured reason with
`err.code || 'ERROR'`, and a plain error yields code 'ERROR'. -/
def reasonOfThrown (e : JSError) : GuardReason :=
  match e.pulseFailReason with
  | some r => r
  | none =>
    match e.meta with
    | some m =>
      { code := (match e.code with
                 | some c => if c = "" then "ERROR" else c
                 | none => "ERROR"),
        message := e.message, meta := some m }
    | none => { code := "ERROR", message := e.message }

/-- The resolved-value trichotomy applied by `evaluate` both in the
synchronous branch (compute.ts lines 734-752) and in the `.then`
continuation (lines 683-700): literal `false` fails with the default reason,
`undefined` spreads the previous state with status 'pending', and any other
value is a fresh 'ok' state holding only the value. -/
def applyResolved (name : Option String) (st : GuardState) (result : JSVal) : GuardState :=
  if result = JSVal.boolF then
    let r := defaultFailReason name
    { status := GuardStatus.fail, value := none, reason := some r, lastReason := some r }
  else if result = JSVal.undef then
    { st with status := GuardStatus.pending }
  else
    { status := GuardStatus.ok, value := some result, reason := none, lastReason := none }

/-- The synchronous catch branch of `evaluate` (compute.ts lines 755-789):
a fresh 'fail' state with both reason and lastReason set to the normalised
thrown value. -/
def applySyncThrow (e : JSError) : GuardState :=
  let r := reasonOfThrown e
  { status := GuardStatus.fail, value := none, reason := some r, lastReason := some r }

/-- The `.catch` continuation of an asynchronous evaluation (compute.ts lines
702-733): a fresh 'fail' state whose lastReason is `state.reason || reason`,
i.e. the previous reason when one was present. -/
def applyRejected (st : GuardState) (e : JSError) : GuardState :=
  let r := reasonOfThrown e
  { status := GuardStatus.fail, value := none, reason := some r,
    lastReason := some (st.reason.getD r) }

/-- The flip to 'pending' performed when the evaluator returns a Promise
(compute.ts lines 677-680): a spread of the previous state with status
'pending'. -/
def applyPromiseStart (st : GuardState) : GuardState :=
  { st with status := GuardStatus.pending }

/-- The mutable core of one Guard: its state, the monotone run-id counter
`evaluationId`, an instrumentation counter of evaluator invocations, and the
dependent / subscriber sets. -/
structure GuardMachine where
  state : GuardState
  evaluationId : Nat := 0
  evalCount : Nat := 0
  dependents : List Nat := []
  subscribers : List Nat := []
deriving DecidableEq, Repr

/-- What one call of `notifyDependents` produced: the snapshot of dependents
that received `notify()`, and the subscriber calls, each carrying the state
snapshot passed to the listener. -/
structure NotifyOut where
  notifiedDependents : List Nat := []
  subscriberCalls : List (Nat × GuardState) := []
deriving DecidableEq, Repr

/-- notifyDependents from compute.ts: snapshot and clear the dependent set,
notify each snapshotted dependent, then broadcast the state to subscribers. -/
def GuardMachine.notifyDependents (m : GuardMachine) : GuardMachine × NotifyOut :=
  ({ m with dependents := [] },
   { notifiedDependents := m.dependents,
     subscriberCalls := m.subscribers.map (fun i => (i, m.state)) })

/-- How the evaluator body behaves on one run: return a value synchronously,
throw synchronously, or return a Promise whose settlement arrives later. -/
inductive EvalOutcome where
  | syncVal (v : JSVal)
  | syncThrow (e : JSError)
  | promise
deriving DecidableEq, Repr

/-- Settlement of a returned Promise: resolution with a value or rejection
with a thrown value. -/
inductive AsyncOutcome where
  | resolved (v : JSVal)
  | rejected (e : JSError)
deriving DecidableEq, Repr

/-- Result of one call to `evaluate`: the machine afterwards, the run-id the
call captured for its async continuations, and the notification fan-out the
call performed synchronously. -/
structure EvalStep where
  machine : GuardMachine
  capturedId : Nat
  fanout : NotifyOut
deriving DecidableEq, Repr

/-- evaluate from compute.ts (lines 657-790), with the evaluator's behaviour
supplied as `oc`. It allocates a new run-id, counts the evaluator invocation,
and then: a synchronous value goes through the trichotomy and notifies only
when status or value changed; a synchronous throw always fails and notifies;
a Promise flips the state to 'pending' (notifying) unless already pending. -/
def GuardMachine.evaluate (name : Option String) (m0 : GuardMachine) (oc : EvalOutcome) :
    EvalStep :=
  let cid := m0.evaluationId + 1
  let oldStatus := m0.state.status
  let oldValue := m0.state.value
  let m1 : GuardMachine := { m0 with evaluationId := cid, evalCount := m0.evalCount + 1 }
  match oc with
  | EvalOutcome.syncVal v =>
    let st := applyResolved name m1.state v
    let m2 := { m1 with state := st }
    if oldStatus ≠ st.status ∨ oldValue ≠ st.value then
      let (m3, out) := m2.notifyDependents
      { machine := m3, capturedId := cid, fanout := out }
    else
      { machine := m2, capturedId := cid, fanout := {} }
  | EvalOutcome.syncThrow e =>
    let m2 := { m1 with state := applySyncThrow e }
    let (m3, out) := m2.notifyDependents
    { machine := m3, capturedId := cid, fanout := out }
  | EvalOutcome.promise =>
    if m1.state.status ≠ GuardStatus.pending then
      let m2 := { m1 with state := applyPromiseStart m1.state }
      let (m3, out) := m2.notifyDependents
      { machine := m3, capturedId := cid, fanout := out }
    else
      { machine := m1, capturedId := cid, fanout := {} }

/-- The `.then`/`.catch` continuation of an asynchronous run (compute.ts
lines 682-733): the settlement is applied, and dependents notified, only when
the run-id captured at the start of that run still equals the Guard's current
run-id; otherwise nothing at all happens. -/
def GuardMachine.completeAsync (name : Option String) (m : GuardMachine)
    (capturedId : Nat) (oc : AsyncOutcome) : GuardMachine × NotifyOut :=
  if capturedId = m.evaluationId then
    let st := match oc with
      | AsyncOutcome.resolved v => applyResolved name m.state v
      | AsyncOutcome.rejected e => applyRejected m.state e
    let m2 := { m with state := st }
    m2.notifyDependents
  else
    (m, {})

/-- _hydrate from compute.ts (lines 891-895): force-set the state, bump the
run-id, and notify dependents and subscribers. The evaluator is not invoked
(`evalCount` untouched). -/
def GuardMachine.hydrate (m : GuardMachine) (newState : GuardState) :
    GuardMachine × NotifyOut :=
  let m2 := { m with state := newState, evaluationId := m.evaluationId + 1 }
  m2.notifyDependents

/-- The cyclic-dependency message of tracking.ts:
`Cyclic guard dependency detected: ` plus `_name || 'unnamed guard'`. -/
def cyclicMessage (name : Option String) : String :=
  "Cyclic guard dependency detected: " ++
    (match name with
     | some n => if n = "" then "unnamed guard" else n
     | none => "unnamed guard")

/-- runInContext from tracking.ts (guard-stack revision, lines 106-117).
Guard nodes are numeric identities with names given by `names`; the global
`guardStack` is passed and returned explicitly. The body `fn` receives the
stack it runs under and returns `Except`, its `.error` case standing for a
throw; the pop in the `finally` block is the `dropLast`. The body's own
nested `runInContext` calls are stack-balanced by the same `finally`
discipline, which is why `fn` does not return a stack of its own. -/
def runInContext {α : Type} (names : Nat → Option String) (g : Nat)
    (fn : List Nat → Except JSError α) (stack : List Nat) :
    Except JSError α × List Nat :=
  if g ∈ stack then
    (Except.error { message := cyclicMessage (names g) }, stack)
  else
    (fn (stack ++ [g]), (stack ++ [g]).dropLast)

/-- A Pulse Source (registry.ts lines 484-525): a value, manual subscribers
and a dependent set, both modelled as identity lists. -/
structure SourceM (α : Type) where
  value : α
  subscribers : List Nat := []
  dependents : List Nat := []
deriving DecidableEq, Repr

/-- Reading a Source returns its current value (the tracking side effect is
modelled separately by `GuardView.track`). -/
def SourceM.read {α : Type} (s : SourceM α) : α := s.value

/-- Source.set: when `equals(old, new)` is false, replace the value, invoke
every subscriber with the new value, then snapshot-and-clear the dependent
set and notify each snapshotted dependent. Returns the source afterwards,
the subscriber calls performed, and the dependents notified. -/
def SourceM.set {α : Type} (eq : α → α → Bool) (s : SourceM α) (v : α) :
    SourceM α × List (Nat × α) × List Nat :=
  if eq s.value v then (s, [], [])
  else
    ({ value := v, subscribers := s.subscribers, dependents := [] },
     s.subscribers.map (fun i => (i, v)),
     s.dependents)

/-- The default equality of Source.set: strict equality `===`. -/
def jsStrictEq (a b : JSVal) : Bool := decide (a = b)

/-- g.reason() projection (compute.ts lines 835-838): `state.reason ||
state.lastReason`; both are always-truthy objects when present. -/
def memberReason (st : GuardState) : Option GuardReason :=
  match st.reason with
  | some r => some r
  | none => st.lastReason

/-- The message guardAll extracts from a member's reason:
`reason?.toString() || 'condition failed'`, where every library-built
reason's toString returns its message, and both `undefined` and the empty
string fall through to the default. -/
def reasonMessageOrDefault (r : Option GuardReason) : String :=
  match r with
  | some gr => if gr.message = "" then "condition failed" else gr.message
  | none => "condition failed"

/-- The loop body of the guardAll evaluator (part_005 lines 32-37): walk
every member, remembering the first member whose ok() is false and counting
the ok() reads performed. -/
def guardAllScan (ff : Option GuardState) (n : Nat) :
    List GuardState → Option GuardState × Nat
  | [] => (ff, n)
  | st :: rest =>
    guardAllScan
      (if st.status ≠ GuardStatus.ok then
         (match ff with
          | none => some st
          | some f => some f)
       else ff)
      (n + 1) rest

/-- The guardAll evaluator (part_005 lines 31-45): after reading every
member, throw an Error carrying the first failing member's reason message if
one exists, else return `true`. The second component counts ok() reads. -/
def guardAllEval (members : List GuardState) : Except JSError Bool × Nat :=
  match guardAllScan none 0 members with
  | (some ff, n) => (Except.error { message := reasonMessageOrDefault (memberReason ff) }, n)
  | (none, n) => (Except.ok true, n)

/-- The state a guardAll composite ends one synchronous run in: its
evaluator's outcome fed through the outer Guard's normal synchronous paths
(`applyResolved` for a returned value, `applySyncThrow` for a throw). -/
def guardAllState (name : Option String) (prev : GuardState)
    (members : List GuardState) : GuardState :=
  match (guardAllEval members).1 with
  | Except.ok b => applyResolved name prev (if b then JSVal.boolT else JSVal.boolF)
  | Except.error e => applySyncThrow e

/-- A deep reactive pulse object (part_007): either a plain leaf value or a
proxy-wrapped object carrying its own `$subscribe` subscriber list and its
named properties. Each nested wrapper owns its own subscriber list, exactly
as each nested `pulse(...)` call allocates a fresh set. -/
inductive PNode where
  | leaf (v : JSVal)
  | obj (subs : List Nat) (fields : List (String × PNode))

/-- Property lookup on a wrapper's field list. -/
def lookupField : List (String × PNode) → String → Option PNode
  | [], _ => none
  | (k, n) :: rest, key => if k = key then some n else lookupField rest key

/-- Property replacement on a wrapper's field list. -/
def updateField : List (String × PNode) → String → PNode → List (String × PNode)
  | [], _, _ => []
  | (k, n) :: rest, key, nv =>
    if k = key then (k, nv) :: rest else (k, n) :: updateField rest key nv

/-- Assignment through the proxy chain (part_007 set trap, lines 152-163):
`obj.a.b.c = v` resolves every prefix through the get traps, so the set trap
that fires is the one of the innermost wrapper owning the final key. That
trap skips everything when `oldValue === value`, else writes the backing
value and calls the innermost wrapper's own `notify()`, which invokes that
wrapper's subscribers. Returns the updated tree and the subscribers invoked;
`none` when the path does not resolve to an existing leaf property. -/
def setPath : PNode → List String → JSVal → Option (PNode × List Nat)
  | PNode.obj subs fields, [key], v =>
    (match lookupField fields key with
     | some (PNode.leaf old) =>
       if old = v then some (PNode.obj subs fields, [])
       else some (PNode.obj subs (updateField fields key (PNode.leaf v)), subs)
     | _ => none)
  | PNode.obj subs fields, key :: k2 :: rest, v =>
    (match lookupField fields key with
     | some child =>
       (match setPath child (k2 :: rest) v with
        | some (child2, notified) =>
          some (PNode.obj subs (updateField fields key child2), notified)
        | none => none)
     | none => none)
  | _, _, _ => none

/-- Read the leaf value at a path. -/
def getLeaf : PNode → List String → Option JSVal
  | PNode.leaf v, [] => some v
  | PNode.obj _ fields, k :: rest =>
    (match lookupField fields k with
     | some c => getLeaf c rest
     | none => none)
  | _, _ => none

/-- The `$subscribe` subscriber list of the wrapper that owns the property a
path addresses, i.e. of the node at the path's parent. -/
def ownerSubs : PNode → List String → Option (List Nat)
  | PNode.obj subs _, [_] => some subs
  | PNode.obj _ fields, k :: k2 :: rest =>
    (match lookupField fields k with
     | some c => ownerSubs c (k2 :: rest)
     | none => none)
  | _, _ => none

/-- Set-insertion for the identity lists standing in for JavaScript Sets. -/
def addUnique (l : List Nat) (x : Nat) : List Nat :=
  if x ∈ l then l else l ++ [x]

/-- The observable face of one Guard during a read: its own identity, its
state, and its dependent set. -/
structure GuardView where
  selfId : Nat
  state : GuardState
  dependents : List Nat := []
deriving DecidableEq, Repr

/-- track from compute.ts (lines 807-813): with `active` the top of the
tracking stack and `activeDeps` the active guard's current dependency set,
register the edge in both directions unless the active guard is this guard
itself. -/
def GuardView.track (g : GuardView) (active : Option Nat) (activeDeps : List Nat) :
    GuardView × List Nat :=
  match active with
  | some a =>
    if a ≠ g.selfId then
      ({ g with dependents := addUnique g.dependents a }, addUnique activeDeps g.selfId)
    else (g, activeDeps)
  | none => (g, activeDeps)

/-- The call read `g()` (compute.ts lines 815-818): track, then the value
when status is 'ok', else `undefined`. -/
def GuardView.readCall (g : GuardView) (active : Option Nat) (activeDeps : List Nat) :
    (GuardView × List Nat) × Option JSVal :=
  (g.track active activeDeps,
   if g.state.status = GuardStatus.ok then g.state.value else none)

/-- g.ok() (compute.ts lines 820-823). -/
def GuardView.readOk (g : GuardView) (active : Option Nat) (activeDeps : List Nat) :
    (GuardView × List Nat) × Bool :=
  (g.track active activeDeps, decide (g.state.status = GuardStatus.ok))

/-- g.fail() (compute.ts lines 825-828). -/
def GuardView.readFail (g : GuardView) (active : Option Nat) (activeDeps : List Nat) :
    (GuardView × List Nat) × Bool :=
  (g.track active activeDeps, decide (g.state.status = GuardStatus.fail))

/-- g.pending() (compute.ts lines 830-833). -/
def GuardView.readPending (g : GuardView) (active : Option Nat) (activeDeps : List Nat) :
    (GuardView × List Nat) × Bool :=
  (g.track active activeDeps, decide (g.state.status = GuardStatus.pending))

/-- g.reason() (compute.ts lines 835-838). -/
def GuardView.readReason (g : GuardView) (active : Option Nat) (activeDeps : List Nat) :
    (GuardView × List Nat) × Option GuardReason :=
  (g.track active activeDeps, memberReason g.state)

/-- g.state() (compute.ts lines 840-843). -/
def GuardView.readState (g : GuardView) (active : Option Nat) (activeDeps : List Nat) :
    (GuardView × List Nat) × GuardState :=
  (g.track active activeDeps, g.state)

/-- C3: runInContext throws the descriptive cyclic-dependency error carrying
the guard's name exactly when the guard is already on the evaluation stack
(and then without consulting the body at all, since the result is the same
for every `fn`); otherwise it runs the body on the stack with the guard
pushed, and on every exit path — normal return or throw of the body alike —
the stack after the call equals the stack before it. -/
theorem runInContext_cycle_and_stack {α : Type} (names : Nat → Option String)
    (g : Nat) (fn : List Nat → Except JSError α) (stack : List Nat) :
    ((runInContext names g fn stack).2 = stack) ∧
    (g ∈ stack →
      (runInContext names g fn stack).1 =
        Except.error { message := cyclicMessage (names g) }) ∧
    (g ∉ stack →
      (runInContext names g fn stack).1 = fn (stack ++ [g])) := by
  unfold runInContext
  by_cases h : g ∈ stack
  · simp [h]
  · simp [h, List.dropLast_concat]

/-- Witness for C3 at concrete inputs: on stack [0] the call for guard 0
fails with the cyclic message; on stack [1] it runs the body. -/
theorem runInContext_cycle_and_stack_witness :
    (runInContext (fun _ => some "a") 0 (fun _ => Except.ok (1 : Nat)) [0]).1 =
      Except.error { message := cyclicMessage (some "a") } ∧
    (runInContext (fun _ => some "a") 0 (fun _ => Except.ok (1 : Nat)) [1]).1 =
      Except.ok 1 := by
  refine ⟨(runInContext_cycle_and_stack (fun _ => some "a") 0
    (fun _ => Except.ok (1 : Nat)) [0]).2.1 (by decide), ?_⟩
  exact (runInContext_cycle_and_stack (fun _ => some "a") 0
    (fun _ => Except.ok (1 : Nat)) [1]).2.2 (by decide)

/-- C10: reading a Guard through any of its six public read operations while
that same Guard is the active evaluator on top of the tracking stack leaves
both its dependent set and the active guard's dependency set unchanged — no
self-edge is ever created by a read. -/
theorem guard_read_no_self_edge (g : GuardView) (activeDeps : List Nat) :
    ((g.readCall (some g.selfId) activeDeps).1 = (g, activeDeps)) ∧
    ((g.readOk (some g.selfId) activeDeps).1 = (g, activeDeps)) ∧
    ((g.readFail (some g.selfId) activeDeps).1 = (g, activeDeps)) ∧
    ((g.readPending (some g.selfId) activeDeps).1 = (g, activeDeps)) ∧
    ((g.readReason (some g.selfId) activeDeps).1 = (g, activeDeps)) ∧
    ((g.readState (some g.selfId) activeDeps).1 = (g, activeDeps)) := by
  simp [GuardView.readCall, GuardView.readOk, GuardView.readFail,
    GuardView.readPending, GuardView.readReason, GuardView.readState,
    GuardView.track]

/-- C2: the synchronous three-way classification. Literal `false` gives
status 'fail' with the default reason message — `<name> failed` for a
(non-empty) name, `condition failed` when unnamed; `undefined` gives status
'pending'; any other value gives a fresh 'ok' state holding exactly that
value. fail() and pending() are mutually exclusive on the resulting state. -/
theorem guard_sync_result_trichotomy (name : Option String) (st : GuardState)
    (v : JSVal) :
    (∀ n, name = some n → n ≠ "" →
      applyResolved name st JSVal.boolF =
        { status := GuardStatus.fail, value := none,
          reason := some { code := "GUARD_FAIL", message := n ++ " failed" },
          lastReason := some { code := "GUARD_FAIL", message := n ++ " failed" } }) ∧
    (name = none →
      applyResolved name st JSVal.boolF =
        { status := GuardStatus.fail, value := none,
          reason := some { code := "GUARD_FAIL", message := "condition failed" },
          lastReason := some { code := "GUARD_FAIL", message := "condition failed" } }) ∧
    ((applyResolved name st JSVal.undef).status = GuardStatus.pending) ∧
    (v ≠ JSVal.boolF → v ≠ JSVal.undef →
      applyResolved name st v =
        { status := GuardStatus.ok, value := some v,
          reason := none, lastReason := none }) ∧
    (¬ ((applyResolved name st v).status = GuardStatus.fail ∧
        (applyResolved name st v).status = GuardStatus.pending)) := by
  refine ⟨?_, ?_, ?_, ?_, ?_⟩
  · intro n hn hne
    subst hn
    simp [applyResolved, defaultFailReason, defaultFailMessage, hne]
  · intro hn
    subst hn
    simp [applyResolved, defaultFailReason, defaultFailMessage]
  · simp [applyResolved]
  · intro h1 h2
    simp [applyResolved, h1, h2]
  · rintro ⟨h1, h2⟩
    rw [h1] at h2
    exact GuardStatus.noConfusion h2

/-- Witness for C2 at concrete inputs: a guard named "age" returning false,
undefined, and the number 5, from a fresh pending state. -/
theorem guard_sync_result_trichotomy_witness :
    (applyResolved (some "age") { status := GuardStatus.pending } JSVal.boolF =
      { status := GuardStatus.fail, value := none,
        reason := some { code := "GUARD_FAIL", message := "age failed" },
        lastReason := some { code := "GUARD_FAIL", message := "age failed" } }) ∧
    ((applyResolved (some "age") { status := GuardStatus.pending } JSVal.undef).status
      = GuardStatus.pending) ∧
    (applyResolved (some "age") { status := GuardStatus.pending } (JSVal.num 5) =
      { status := GuardStatus.ok, value := some (JSVal.num 5),
        reason := none, lastReason := none }) := by
  have h := guard_sync_result_trichotomy (some "age")
    { status := GuardStatus.pending } (JSVal.num 5)
  refine ⟨?_, h.2.2.1, ?_⟩
  · have := h.1 "age" rfl (by decide)
    simpa using this
  · exact h.2.2.2.1 (by decide) (by decide)

/-- C4 counterexample: the claimed invariant "value is defined only when
status = 'ok'" is violated by a completed transition the claim itself lists.
From an 'ok' state holding the value 1, an evaluator returning `undefined`
completes a synchronous transition to 'pending' that spreads the old state,
so the resulting state has status 'pending' with value still defined. -/
theorem guard_state_invariant_cex :
    (applyResolved none { status := GuardStatus.ok, value := some (JSVal.num 1) }
        JSVal.undef).status = GuardStatus.pending ∧
    (applyResolved none { status := GuardStatus.ok, value := some (JSVal.num 1) }
        JSVal.undef).value = some (JSVal.num 1) := by
  decide

/-- C4 amended: transitions that set status 'ok' hold exactly the value (no
reason), transitions that set status 'fail' hold a reason and no value, and
the two transitions to 'pending' (an `undefined` result and the flip when a
Promise is returned) preserve the previous state's value and reason fields,
which may therefore remain defined while pending. -/
theorem guard_state_invariant_amended (name : Option String) (st : GuardState)
    (v : JSVal) (e : JSError) :
    (v ≠ JSVal.boolF → v ≠ JSVal.undef →
      (applyResolved name st v).reason = none ∧
      (applyResolved name st v).value = some v ∧
      (applyResolved name st v).status = GuardStatus.ok) ∧
    ((applyResolved name st JSVal.boolF).value = none ∧
      (applyResolved name st JSVal.boolF).reason = some (defaultFailReason name) ∧
      (applyResolved name st JSVal.boolF).status = GuardStatus.fail) ∧
    ((applySyncThrow e).value = none ∧
      (applySyncThrow e).reason = some (reasonOfThrown e) ∧
      (applySyncThrow e).status = GuardStatus.fail) ∧
    ((applyRejected st e).value = none ∧
      (applyRejected st e).reason = some (reasonOfThrown e) ∧
      (applyRejected st e).status = GuardStatus.fail) ∧
    ((applyResolved name st JSVal.undef).value = st.value ∧
      (applyResolved name st JSVal.undef).reason = st.reason ∧
      (applyResolved name st JSVal.undef).status = GuardStatus.pending) ∧
    ((applyPromiseStart st).value = st.value ∧
      (applyPromiseStart st).reason = st.reason ∧
      (applyPromiseStart st).status = GuardStatus.pending) := by
  refine ⟨?_, ?_, ?_, ?_, ?_, ?_⟩
  · intro h1 h2
    simp [applyResolved, h1, h2]
  · simp [applyResolved]
  · simp [applySyncThrow]
  · simp [applyRejected]
  · simp [applyResolved]
  · simp [applyPromiseStart]

/-- Witness for C4 amended at concrete inputs: the 'ok' clause at the value
5 from a pending state. -/
theorem guard_state_invariant_amended_witness :
    (applyResolved none { status := GuardStatus.pending } (JSVal.num 5)).reason = none ∧
    (applyResolved none { status := GuardStatus.pending } (JSVal.num 5)).value
      = some (JSVal.num 5) := by
  have h := (guard_state_invariant_amended none { status := GuardStatus.pending }
    (JSVal.num 5) { message := "boom" }).1 (by decide) (by decide)
  exact ⟨h.1, h.2.1⟩

/-- C5 counterexample: after an unnamed guard fails (lastReason set to the
default reason), a subsequent synchronous evaluation returning the value 2
builds a fresh 'ok' state that drops lastReason entirely, so the most recent
fail-reason does not persist across the transition to 'ok'. -/
theorem guard_lastReason_persistence_cex :
    ((applyResolved none { status := GuardStatus.pending } JSVal.boolF).lastReason =
      some { code := "GUARD_FAIL", message := "condition failed" }) ∧
    ((applyResolved none
        (applyResolved none { status := GuardStatus.pending } JSVal.boolF)
        (JSVal.num 2)).lastReason = none) := by
  decide

/-- C5 amended: lastReason persists across subsequent transitions to
'pending' (both the `undefined` result and the Promise flip), but a
transition to 'ok' resets lastReason to undefined; each failing transition
re-sets it (the synchronous paths to the new reason, the asynchronous
rejection to the state's previous reason when one was present, else the new
reason). -/
theorem guard_lastReason_persistence_amended (name : Option String)
    (st : GuardState) (v : JSVal) (e : JSError) :
    ((applyResolved name st JSVal.undef).lastReason = st.lastReason) ∧
    ((applyPromiseStart st).lastReason = st.lastReason) ∧
    (v ≠ JSVal.boolF → v ≠ JSVal.undef →
      (applyResolved name st v).lastReason = none) ∧
    ((applyResolved name st JSVal.boolF).lastReason = some (defaultFailReason name)) ∧
    ((applySyncThrow e).lastReason = some (reasonOfThrown e)) ∧
    ((applyRejected st e).lastReason = some (st.reason.getD (reasonOfThrown e))) := by
  refine ⟨?_, ?_, ?_, ?_, ?_, ?_⟩
  · simp [applyResolved]
  · simp [applyPromiseStart]
  · intro h1 h2
    simp [applyResolved, h1, h2]
  · simp [applyResolved]
  · simp [applySyncThrow]
  · simp [applyRejected]

/-- Witness for C5 amended at concrete inputs: a failed state's lastReason
survives an `undefined` re-evaluation, and is cleared by an 'ok' one. -/
theorem guard_lastReason_persistence_amended_witness :
    ((applyResolved none
        { status := GuardStatus.fail,
          reason := some { code := "GUARD_FAIL", message := "condition failed" },
          lastReason := some { code := "GUARD_FAIL", message := "condition failed" } }
        JSVal.undef).lastReason =
      some { code := "GUARD_FAIL", message := "condition failed" }) ∧
    ((applyResolved none
        { status := GuardStatus.fail,
          reason := some { code := "GUARD_FAIL", message := "condition failed" },
          lastReason := some { code := "GUARD_FAIL", message := "condition failed" } }
        (JSVal.num 2)).lastReason = none) := by
  constructor
  · exact (guard_lastReason_persistence_amended none _ (JSVal.num 2)
      { message := "x" }).1
  · exact (guard_lastReason_persistence_amended none _ (JSVal.num 2)
      { message := "x" }).2.2.1 (by decide) (by decide)

/-- An equality function a Source can be constructed with that reports every
pair of values equal; used to refute the unrestricted round-trip claim. -/
def alwaysEqual : JSVal → JSVal → Bool := fun _ _ => true

/-- C8 counterexample: the round-trip claim quantifies over every Source,
but a Source constructed with a custom equality function that reports the
values equal ignores the set entirely: on a source holding 0, set(1) under
`alwaysEqual` leaves the stored value 0, so the subsequent read returns 0,
not 1. -/
theorem source_set_read_cex :
    ((SourceM.mk (JSVal.num 0) [] []).set alwaysEqual (JSVal.num 1)).1.read
      = JSVal.num 0 ∧
    JSVal.num 0 ≠ JSVal.num 1 := by
  decide

/-- C8 amended: for every Source with the default strict-equality function,
set(v) followed by read() returns v unconditionally; setting a value equal
to the current one performs nothing at all (no subscriber call, no dependent
notification, value unchanged); and for any equality function, whenever it
reports the values as different the value is replaced, every subscriber is
invoked with the new value, and the snapshotted dependents are notified. -/
theorem source_set_read_amended (s : SourceM JSVal) (v : JSVal)
    (eqf : JSVal → JSVal → Bool) :
    (((s.set jsStrictEq v).1.read = v)) ∧
    (s.value = v → s.set jsStrictEq v = (s, [], [])) ∧
    (eqf s.value v = false →
      (s.set eqf v).1.read = v ∧
      (s.set eqf v).2.1 = s.subscribers.map (fun i => (i, v)) ∧
      (s.set eqf v).2.2 = s.dependents) := by
  refine ⟨?_, ?_, ?_⟩
  · by_cases h : s.value = v
    · simp [SourceM.set, SourceM.read, jsStrictEq, h]
    · simp [SourceM.set, SourceM.read, jsStrictEq, h]
  · intro h
    simp [SourceM.set, jsStrictEq, h]
  · intro h
    simp [SourceM.set, SourceM.read, h]

/-- Witness for C8 amended at concrete inputs: set then read round-trips on
a source holding 0 with one subscriber, and setting the current value is a
complete no-op. -/
theorem source_set_read_amended_witness :
    (((SourceM.mk (JSVal.num 0) [4] [9]).set jsStrictEq (JSVal.num 1)).1.read
      = JSVal.num 1) ∧
    ((SourceM.mk (JSVal.num 0) [4] [9]).set jsStrictEq (JSVal.num 0)
      = (SourceM.mk (JSVal.num 0) [4] [9], [], [])) := by
  refine ⟨(source_set_read_amended (SourceM.mk (JSVal.num 0) [4] [9])
    (JSVal.num 1) alwaysEqual).1, ?_⟩
  exact (source_set_read_amended (SourceM.mk (JSVal.num 0) [4] [9])
    (JSVal.num 0) alwaysEqual).2.1 rfl

/-- Helper: one call to `evaluate` always advances the run-id by exactly one
and captures the advanced id for its continuations, whatever the evaluator
did. -/
theorem evaluate_run_id (name : Option String) (m : GuardMachine)
    (oc : EvalOutcome) :
    ((m.evaluate name oc).machine.evaluationId = m.evaluationId + 1) ∧
    ((m.evaluate name oc).capturedId = m.evaluationId + 1) := by
  cases oc <;>
    simp only [GuardMachine.evaluate, GuardMachine.notifyDependents] <;>
    (try split) <;> simp

/-- C1: the run-id gate on asynchronous settlement. A settlement whose
captured run-id differs from the Guard's current run-id changes nothing at
all — neither status, value, reason, nor any notification; a settlement is
applied exactly when the ids match; and in the concrete superseding
scenario — an async run is started, then any newer evaluation runs — the
older run's settlement is guaranteed stale and is silently discarded. -/
theorem guard_async_run_id_gating (name : Option String) (m : GuardMachine)
    (cid : Nat) (oc : AsyncOutcome) (oc2 : EvalOutcome) :
    (cid ≠ m.evaluationId →
      m.completeAsync name cid oc = (m, {})) ∧
    (cid = m.evaluationId →
      (m.completeAsync name cid oc).1.state =
        (match oc with
         | AsyncOutcome.resolved v => applyResolved name m.state v
         | AsyncOutcome.rejected e => applyRejected m.state e)) ∧
    (((m.evaluate name EvalOutcome.promise).machine.evaluate name oc2).machine.completeAsync
        name (m.evaluate name EvalOutcome.promise).capturedId oc =
      (((m.evaluate name EvalOutcome.promise).machine.evaluate name oc2).machine, {})) := by
  refine ⟨?_, ?_, ?_⟩
  · intro h
    simp [GuardMachine.completeAsync, h]
  · intro h
    cases oc <;> simp [GuardMachine.completeAsync, GuardMachine.notifyDependents, h]
  · have h1 := (evaluate_run_id name m EvalOutcome.promise).2
    have h2 := (evaluate_run_id name (m.evaluate name EvalOutcome.promise).machine oc2).1
    have h3 := (evaluate_run_id name m EvalOutcome.promise).1
    have hne : (m.evaluate name EvalOutcome.promise).capturedId ≠
        ((m.evaluate name EvalOutcome.promise).machine.evaluate name oc2).machine.evaluationId := by
      rw [h1, h2, h3]
      omega
    simp [GuardMachine.completeAsync, hne]

/-- Witness for C1 at concrete inputs: on a fresh machine, a first async run
superseded by a second async run has its resolution discarded, while a
matching-id resolution commits the 'ok' state. -/
theorem guard_async_run_id_gating_witness :
    (let m0 : GuardMachine := { state := { status := GuardStatus.pending } }
     let step1 := m0.evaluate none EvalOutcome.promise
     let step2 := step1.machine.evaluate none EvalOutcome.promise
     step2.machine.completeAsync none step1.capturedId
        (AsyncOutcome.resolved (JSVal.num 1)) = (step2.machine, {})) ∧
    (let m0 : GuardMachine := { state := { status := GuardStatus.pending } }
     let step1 := m0.evaluate none EvalOutcome.promise
     (step1.machine.completeAsync none step1.capturedId
        (AsyncOutcome.resolved (JSVal.num 3))).1.state =
       { status := GuardStatus.ok, value := some (JSVal.num 3),
         reason := none, lastReason := none }) := by
  constructor
  · exact (guard_async_run_id_gating none { state := { status := GuardStatus.pending } }
      0 (AsyncOutcome.resolved (JSVal.num 1)) EvalOutcome.promise).2.2
  · have h := (guard_async_run_id_gating none
      (({ state := { status := GuardStatus.pending } } : GuardMachine).evaluate none
        EvalOutcome.promise).machine
      ((({ state := { status := GuardStatus.pending } } : GuardMachine).evaluate none
        EvalOutcome.promise).capturedId)
      (AsyncOutcome.resolved (JSVal.num 3)) EvalOutcome.promise).2.1 (by decide)
    simpa using h

/-- C7: hydration. `_hydrate` replaces the Guard's internal state with
exactly the given snapshot, never invokes the evaluator (the invocation
counter is untouched), notifies every current dependent and broadcasts the
new state to every subscriber, and bumps the run-id so that any settlement
whose captured id predates the hydration is discarded; applying the same
snapshot twice leaves the same state as applying it once. -/
theorem guard_hydrate_spec (name : Option String) (m : GuardMachine)
    (ns : GuardState) (cid : Nat) (oc : AsyncOutcome) :
    ((m.hydrate ns).1.state = ns) ∧
    ((m.hydrate ns).1.evalCount = m.evalCount) ∧
    ((m.hydrate ns).1.evaluationId = m.evaluationId + 1) ∧
    ((m.hydrate ns).2 =
      { notifiedDependents := m.dependents,
        subscriberCalls := m.subscribers.map (fun i => (i, ns)) }) ∧
    (cid ≤ m.evaluationId →
      (m.hydrate ns).1.completeAsync name cid oc = ((m.hydrate ns).1, {})) ∧
    (((m.hydrate ns).1.hydrate ns).1.state = (m.hydrate ns).1.state) := by
  refine ⟨?_, ?_, ?_, ?_, ?_, ?_⟩
  · simp [GuardMachine.hydrate, GuardMachine.notifyDependents]
  · simp [GuardMachine.hydrate, GuardMachine.notifyDependents]
  · simp [GuardMachine.hydrate, GuardMachine.notifyDependents]
  · simp [GuardMachine.hydrate, GuardMachine.notifyDependents]
  · intro h
    have hne : cid ≠ (m.hydrate ns).1.evaluationId := by
      simp only [GuardMachine.hydrate, GuardMachine.notifyDependents]
      omega
    simp [GuardMachine.completeAsync, hne]
  · simp [GuardMachine.hydrate, GuardMachine.notifyDependents]

/-- Witness for C7 at concrete inputs: hydrating a freshly failed machine
with an 'ok' snapshot adopts the snapshot without invoking the evaluator,
and the in-flight settlement captured before hydration is discarded. -/
theorem guard_hydrate_spec_witness :
    (let m : GuardMachine :=
      { state := { status := GuardStatus.pending }, evaluationId := 1,
        evalCount := 1, dependents := [2], subscribers := [5] }
     let ns : GuardState := { status := GuardStatus.ok, value := some (JSVal.num 7) }
     (m.hydrate ns).1.state = ns ∧
     (m.hydrate ns).1.evalCount = 1 ∧
     (m.hydrate ns).1.completeAsync none 1
        (AsyncOutcome.resolved (JSVal.num 9)) = ((m.hydrate ns).1, {})) := by
  have h := guard_hydrate_spec none
    { state := { status := GuardStatus.pending }, evaluationId := 1,
      evalCount := 1, dependents := [2], subscribers := [5] }
    { status := GuardStatus.ok, value := some (JSVal.num 7) } 1
    (AsyncOutcome.resolved (JSVal.num 9))
  exact ⟨h.1, h.2.1, h.2.2.2.2.1 (by decide)⟩

/-- Helper: the first-failure accumulator of the guardAll loop computes the
accumulated hit if there is one, else the first member whose status is not
'ok'. -/
theorem guardAllScan_fst (ms : List GuardState) :
    ∀ (ff : Option GuardState) (n : Nat),
      (guardAllScan ff n ms).1 =
        (match ff with
         | some f => some f
         | none => ms.find? (fun st => decide (st.status ≠ GuardStatus.ok))) := by
  induction ms with
  | nil =>
    intro ff n
    cases ff <;> simp [guardAllScan]
  | cons st rest ih =>
    intro ff n
    by_cases h : st.status = GuardStatus.ok
    · cases ff <;> simp [guardAllScan, h, ih, List.find?_cons]
    · cases ff <;> simp [guardAllScan, h, ih, List.find?_cons]

/-- Helper: the guardAll loop performs one ok() read per member. -/
theorem guardAllScan_snd (ms : List GuardState) :
    ∀ (ff : Option GuardState) (n : Nat),
      (guardAllScan ff n ms).2 = n + ms.length := by
  induction ms with
  | nil => intro ff n; simp [guardAllScan]
  | cons st rest ih =>
    intro ff n
    simp only [guardAllScan]
    rw [ih]
    simp
    omega

/-- Helper: the guardAll evaluator in closed form: first not-ok member and
total read count. -/
theorem guardAllEval_eq (ms : List GuardState) :
    guardAllEval ms =
      ((match ms.find? (fun st => decide (st.status ≠ GuardStatus.ok)) with
        | some ff =>
          Except.error { message := reasonMessageOrDefault (memberReason ff) }
        | none => Except.ok true),
       ms.length) := by
  have h : guardAllScan none 0 ms =
      (ms.find? (fun st => decide (st.status ≠ GuardStatus.ok)), ms.length) := by
    refine Prod.ext ?_ ?_
    · simpa using guardAllScan_fst ms none 0
    · simpa using guardAllScan_snd ms none 0
  rw [guardAllEval, h]
  cases ms.find? (fun st => decide (st.status ≠ GuardStatus.ok)) <;> simp

/-- C6 counterexample: guardAll over a first member that failed with an
empty reason message and a second member that is ok. The composite fails,
but its reason message is the default "condition failed" — not the first
not-ok member's reason message, which is the empty string (the same default
takeover occurs when the first not-ok member is pending and has no reason at
all). -/
theorem guardAll_first_reason_cex :
    (let m0 : GuardState :=
      { status := GuardStatus.fail,
        reason := some { code := "GUARD_FAIL", message := "" },
        lastReason := some { code := "GUARD_FAIL", message := "" } }
     let m1 : GuardState := { status := GuardStatus.ok, value := some JSVal.boolT }
     let comp := guardAllState none { status := GuardStatus.pending } [m0, m1]
     comp.status = GuardStatus.fail ∧
     (memberReason m0).map GuardReason.message = some "" ∧
     comp.reason.map GuardReason.message = some "condition failed" ∧
     some "condition failed" ≠ (some "" : Option String)) := by
  decide

/-- C6 amended: a guardAll composite is 'ok' exactly when every member is
'ok'; every member's ok() is read on every run (the read count equals the
member count) even when an earlier member already failed; and when a first
not-ok member exists the composite fails with reason message equal to that
member's reason message when the member has one and it is non-empty, and the
default "condition failed" otherwise (in particular when the first not-ok
member is pending without any reason). -/
theorem guardAll_spec (name : Option String) (prev : GuardState)
    (members : List GuardState) :
    ((guardAllState name prev members).status = GuardStatus.ok ↔
      ∀ st ∈ members, st.status = GuardStatus.ok) ∧
    (∀ ff, members.find? (fun st => decide (st.status ≠ GuardStatus.ok)) = some ff →
      (guardAllState name prev members).status = GuardStatus.fail ∧
      (guardAllState name prev members).reason =
        some { code := "ERROR",
               message := reasonMessageOrDefault (memberReason ff) }) ∧
    ((guardAllEval members).2 = members.length) := by
  refine ⟨?_, ?_, ?_⟩
  · cases hf : members.find? (fun st => decide (st.status ≠ GuardStatus.ok)) with
    | none =>
      have hall : ∀ st ∈ members, st.status = GuardStatus.ok := by
        intro st hst
        have := List.find?_eq_none.mp hf st hst
        simpa using this
      constructor
      · intro _
        exact hall
      · intro _
        simp only [guardAllState, guardAllEval_eq, hf]
        simp [applyResolved]
    | some ff =>
      have hmem : ff ∈ members := List.mem_of_find?_eq_some hf
      have hne : ff.status ≠ GuardStatus.ok := by
        have := List.find?_some hf
        simpa using this
      constructor
      · intro hok
        exfalso
        simp only [guardAllState, guardAllEval_eq, hf] at hok
        simp [applySyncThrow] at hok
      · intro hall
        exact absurd (hall ff hmem) hne
  · intro ff hf
    simp only [guardAllState, guardAllEval_eq, hf]
    simp [applySyncThrow, reasonOfThrown]
  · simp [guardAllEval_eq]

/-- Witness for C6 amended at concrete inputs: over a first member failed
with reason message "X" and a second ok member, the composite fails with
reason message "X" and both members were read. -/
theorem guardAll_spec_witness :
    ((guardAllState none { status := GuardStatus.pending }
        [{ status := GuardStatus.fail,
           reason := some { code := "GUARD_FAIL", message := "X" },
           lastReason := some { code := "GUARD_FAIL", message := "X" } },
         { status := GuardStatus.ok, value := some JSVal.boolT }]).status
      = GuardStatus.fail) ∧
    ((guardAllState none { status := GuardStatus.pending }
        [{ status := GuardStatus.fail,
           reason := some { code := "GUARD_FAIL", message := "X" },
           lastReason := some { code := "GUARD_FAIL", message := "X" } },
         { status := GuardStatus.ok, value := some JSVal.boolT }]).reason =
      some { code := "ERROR",
             message := reasonMessageOrDefault (memberReason
               { status := GuardStatus.fail,
                 reason := some { code := "GUARD_FAIL", message := "X" },
                 lastReason := some { code := "GUARD_FAIL", message := "X" } }) }) ∧
    (reasonMessageOrDefault (memberReason
       { status := GuardStatus.fail,
         reason := some { code := "GUARD_FAIL", message := "X" },
         lastReason := some { code := "GUARD_FAIL", message := "X" } }) = "X") ∧
    ((guardAllEval
        [{ status := GuardStatus.fail,
           reason := some { code := "GUARD_FAIL", message := "X" },
           lastReason := some { code := "GUARD_FAIL", message := "X" } },
         { status := GuardStatus.ok, value := some JSVal.boolT }]).2 = 2) := by
  have h := (guardAll_spec none { status := GuardStatus.pending }
    [{ status := GuardStatus.fail,
       reason := some { code := "GUARD_FAIL", message := "X" },
       lastReason := some { code := "GUARD_FAIL", message := "X" } },
     { status := GuardStatus.ok, value := some JSVal.boolT }]).2.1
    { status := GuardStatus.fail,
      reason := some { code := "GUARD_FAIL", message := "X" },
      lastReason := some { code := "GUARD_FAIL", message := "X" } }
    (by decide)
  exact ⟨h.1, h.2, by decide, by decide⟩

/-- A deep pulse object with one subscriber (id 7) registered via
`$subscribe` on the top-level object, wrapping `user.profile.name`. -/
def pulseDemoTree : PNode :=
  PNode.obj [7]
    [("user", PNode.obj []
      [("profile", PNode.obj []
        [("name", PNode.leaf (JSVal.str "Alice"))])])]

/-- C9 counterexample: assigning `obj.user.profile.name = "X"` on a deep
pulse object whose top-level `$subscribe` list contains subscriber 7
succeeds (the value is visibly updated), yet the set of subscribers invoked
is empty: the set trap fires on the innermost wrapper, whose own `notify()`
reaches only that wrapper's subscribers — the top-level subscriber is never
invoked. -/
theorem pulse_deep_notify_cex :
    ((setPath pulseDemoTree ["user", "profile", "name"] (JSVal.str "X")).map
      (fun r => r.2) = some []) ∧
    ((setPath pulseDemoTree ["user", "profile", "name"] (JSVal.str "X")).bind
      (fun r => getLeaf r.1 ["user", "profile", "name"]) = some (JSVal.str "X")) ∧
    (7 ∈ ([7] : List Nat)) := by
  refine ⟨rfl, rfl, by decide⟩

/-- C9 amended: a successful assignment through the proxy chain notifies no
subscriber at all when the stored value already equals the assigned one (the
`oldValue === value` early return), and otherwise invokes exactly the
`$subscribe` subscribers of the innermost wrapper owning the assigned
property (the node at the path's parent). Subscribers registered on the
top-level object are therefore invoked only by changing assignments to its
own direct properties, not by nested ones. -/
theorem pulse_deep_notify_owner (path : List String) :
    ∀ (n : PNode) (v : JSVal) (r : PNode × List Nat),
      setPath n path v = some r →
      (getLeaf n path = some v → r.2 = []) ∧
      (getLeaf n path ≠ some v → some r.2 = ownerSubs n path) := by
  induction path with
  | nil =>
    intro n v r h
    cases n <;> simp [setPath] at h
  | cons k rest ih =>
    intro n v r h
    cases rest with
    | nil =>
      cases n with
      | leaf w => simp [setPath] at h
      | obj subs fields =>
        simp only [setPath] at h
        cases hl : lookupField fields k with
        | none => rw [hl] at h; simp at h
        | some child =>
          rw [hl] at h
          cases child with
          | leaf old =>
            by_cases he : old = v
            · simp [he] at h
              constructor
              · intro _
                rw [← h]
              · intro hne
                exfalso
                apply hne
                simp [getLeaf, hl, he]
            · simp [he] at h
              constructor
              · intro heq
                exfalso
                apply he
                have hg : getLeaf (PNode.obj subs fields) [k] = some old := by
                  simp [getLeaf, hl]
                rw [hg] at heq
                exact Option.some.inj heq
              · intro _
                rw [← h]
                simp [ownerSubs]
          | obj s2 f2 => simp at h
    | cons k2 rest2 =>
      cases n with
      | leaf w => simp [setPath] at h
      | obj subs fields =>
        cases hl : lookupField fields k with
        | none => simp [setPath, hl] at h
        | some child =>
          cases hs : setPath child (k2 :: rest2) v with
          | none => simp [setPath, hl, hs] at h
          | some r2 =>
            simp only [setPath, hl, hs] at h
            have hih := ih child v r2 hs
            injection h with h
            subst h
            constructor
            · intro heq
              apply hih.1
              simpa [getLeaf, hl] using heq
            · intro hne
              have hchild : getLeaf child (k2 :: rest2) ≠ some v := by
                intro hcontra
                apply hne
                simp [getLeaf, hl, hcontra]
              simpa [ownerSubs, hl] using hih.2 hchild

/-- A deep pulse object used to exercise the amended C9 theorem: the
top-level wrapper carries subscriber 7, the nested `user` wrapper carries
subscriber 3. -/
def pulseWitnessTree : PNode :=
  PNode.obj [7] [("user", PNode.obj [3] [("name", PNode.leaf (JSVal.str "A"))])]

/-- Witness for C9 amended at concrete inputs: a changing nested write
notifies exactly the innermost wrapper's subscribers ([3], never the
top-level [7]), and rewriting the already-stored value notifies nobody. -/
theorem pulse_deep_notify_owner_witness :
    ((setPath pulseWitnessTree ["user", "name"] (JSVal.str "B")).map (fun r => r.2)
      = some [3]) ∧
    (some ([3] : List Nat) = ownerSubs pulseWitnessTree ["user", "name"]) ∧
    ((setPath pulseWitnessTree ["user", "name"] (JSVal.str "A")).map (fun r => r.2)
      = some []) ∧
    (([] : List Nat) = []) := by
  refine ⟨rfl, ?_, rfl, ?_⟩
  · exact (pulse_deep_notify_owner ["user", "name"] pulseWitnessTree (JSVal.str "B")
      (PNode.obj [7] [("user", PNode.obj [3] [("name", PNode.leaf (JSVal.str "B"))])], [3])
      rfl).2 (by decide)
  · exact (pulse_deep_notify_owner ["user", "name"] pulseWitnessTree (JSVal.str "A")
      (pulseWitnessTree, [])
      rfl).1 (by decide)

end Pulse
